import Mathlib

/-
  Verification of the runtime reflection / adapter layer of the
  google_workspace_mcp repository.

  Python code is shallowly embedded: Python strings are modelled as
  `String` (or `List Char` where character-level recursion is needed),
  Python dicts as association lists with first-match lookup and
  in-place update (`pyDictGet` / `pyDictSet`), Python `None` and
  `inspect.Parameter.empty` as `Option` values, and operations that can
  raise as `Except`-valued functions.
-/

namespace GWMcp

/-! ## Python dict model

A Python `dict` is modelled as an association list with unique keys in
insertion order.  `pyDictGet` is `d.get(k)`, `pyDictSet` is `d[k] = v`
(replacing in place if the key exists, appending otherwise),
`pyDictUpdate` is `d.update(u)`, `pyDictDel` is `del d[k]`. -/

def pyDictGet {V : Type} : List (String × V) → String → Option V
  | [], _ => none
  | (k', v) :: rest, k => if k = k' then some v else pyDictGet rest k

def pyDictContains {V : Type} (d : List (String × V)) (k : String) : Bool :=
  d.any (fun kv => decide (kv.1 = k))

def pyDictSet {V : Type} (d : List (String × V)) (k : String) (v : V) :
    List (String × V) :=
  if pyDictContains d k then
    d.map (fun kv => if kv.1 = k then (k, v) else kv)
  else
    d ++ [(k, v)]

def pyDictUpdate {V : Type} (d u : List (String × V)) : List (String × V) :=
  u.foldl (fun acc kv => pyDictSet acc kv.1 kv.2) d

def pyDictDel {V : Type} (d : List (String × V)) (k : String) :
    List (String × V) :=
  d.filter (fun kv => decide (kv.1 ≠ k))

theorem pyDictContains_iff_isSome {V : Type} (d : List (String × V)) (k : String) :
    pyDictContains d k = true ↔ (pyDictGet d k).isSome = true := by
  induction d with
  | nil => simp [pyDictContains, pyDictGet]
  | cons kv rest ih =>
    by_cases h : k = kv.1
    · simp [pyDictContains, pyDictGet, h]
    · simp only [pyDictContains, List.any_cons, decide_eq_true_eq] at ih ⊢
      simp [pyDictGet, h, Ne.symm h, ih]

theorem pyDictGet_map_set {V : Type} (d : List (String × V)) (k : String) (v : V)
    (k' : String) :
    pyDictGet (d.map (fun kv => if kv.1 = k then (k, v) else kv)) k'
      = if k' = k then (pyDictGet d k).map (fun _ => v) else pyDictGet d k' := by
  induction d with
  | nil => simp [pyDictGet]
  | cons kv rest ih =>
    simp only [List.map_cons]
    by_cases h : kv.1 = k
    · rw [if_pos h]
      by_cases h' : k' = k
      · simp [pyDictGet, h', h.symm]
      · have hkv : k' ≠ kv.1 := fun hc => h' (hc.trans h)
        simp [pyDictGet, h', hkv, ih]
    · rw [if_neg h]
      by_cases h' : k' = kv.1
      · have h'' : k' ≠ k := fun hc => h (h' ▸ hc)
        simp [pyDictGet, h', h'', h, ih]
      · have hk : k ≠ kv.1 := fun hc => h hc.symm
        simp [pyDictGet, h', hk, ih]

theorem pyDictGet_append {V : Type} (a b : List (String × V)) (k : String) :
    pyDictGet (a ++ b) k
      = match pyDictGet a k with
        | some v => some v
        | none => pyDictGet b k := by
  induction a with
  | nil => simp [pyDictGet]
  | cons kv rest ih =>
    by_cases h : k = kv.1
    · simp [pyDictGet, h]
    · simp [pyDictGet, h, ih]

theorem pyDictGet_set {V : Type} (d : List (String × V)) (k : String) (v : V)
    (k' : String) :
    pyDictGet (pyDictSet d k v) k'
      = if k' = k then some v else pyDictGet d k' := by
  unfold pyDictSet
  by_cases hc : pyDictContains d k
  · rw [if_pos hc, pyDictGet_map_set]
    have hsome : (pyDictGet d k).isSome = true :=
      (pyDictContains_iff_isSome d k).mp hc
    by_cases h' : k' = k
    · cases hget : pyDictGet d k with
      | none => rw [hget] at hsome; simp at hsome
      | some w => simp [h', hget]
    · simp [h']
  · rw [if_neg hc, pyDictGet_append]
    have hnone : pyDictGet d k = none := by
      cases hget : pyDictGet d k with
      | none => rfl
      | some w =>
        exact absurd ((pyDictContains_iff_isSome d k).mpr (by simp [hget])) hc
    by_cases h' : k' = k
    · simp [h', hnone, pyDictGet]
    · cases hget : pyDictGet d k' with
      | none => simp [h', pyDictGet, hget]
      | some w => simp [h', hget]

theorem pyDictGet_del {V : Type} (d : List (String × V)) (k k' : String) :
    pyDictGet (pyDictDel d k) k'
      = if k' = k then none else pyDictGet d k' := by
  induction d with
  | nil => simp [pyDictDel, pyDictGet]
  | cons kv rest ih =>
    simp only [pyDictDel, List.filter_cons, ne_eq, decide_not] at ih ⊢
    by_cases h : kv.1 = k
    · by_cases h' : k' = k
      · subst h'
        simp [h, ih]
      · have hkv : k' ≠ kv.1 := fun hc => h' (hc.trans h)
        simp [h, h', hkv, ih, pyDictGet]
    · by_cases h' : k' = kv.1
      · have h'' : k' ≠ k := fun hc => h (h' ▸ hc)
        simp [h, h', h'', ih, pyDictGet]
      · simp [h, h', ih, pyDictGet]

theorem mem_keys_of_pyDictGet_some {V : Type} {d : List (String × V)} {k : String}
    {v : V} (h : pyDictGet d k = some v) : k ∈ d.map Prod.fst := by
  induction d with
  | nil => simp [pyDictGet] at h
  | cons kv rest ih =>
    by_cases h2 : k = kv.1
    · simp [h2]
    · simp only [pyDictGet, h2, if_false] at h
      simp [ih h]

theorem pyDictGet_update_none {V : Type} (u d : List (String × V)) (k : String)
    (h : pyDictGet u k = none) :
    pyDictGet (pyDictUpdate d u) k = pyDictGet d k := by
  induction u generalizing d with
  | nil => simp [pyDictUpdate]
  | cons kv rest ih =>
    have hne : k ≠ kv.1 := by
      intro hc
      simp [pyDictGet, hc] at h
    have hrest : pyDictGet rest k = none := by
      simpa [pyDictGet, hne] using h
    show pyDictGet (pyDictUpdate (pyDictSet d kv.1 kv.2) rest) k = _
    rw [ih _ hrest, pyDictGet_set]
    simp [hne]

theorem pyDictGet_update_some {V : Type} (u d : List (String × V)) (k : String)
    (v : V) (hnd : (u.map Prod.fst).Nodup) (h : pyDictGet u k = some v) :
    pyDictGet (pyDictUpdate d u) k = some v := by
  induction u generalizing d with
  | nil => simp [pyDictGet] at h
  | cons kv rest ih =>
    simp only [List.map_cons, List.nodup_cons] at hnd
    by_cases hk : k = kv.1
    · have hv : v = kv.2 := by
        simp [pyDictGet, hk] at h
        exact h.symm
      have hrest : pyDictGet rest k = none := by
        cases hget : pyDictGet rest k with
        | none => rfl
        | some w => exact absurd (hk ▸ mem_keys_of_pyDictGet_some hget) hnd.1
      show pyDictGet (pyDictUpdate (pyDictSet d kv.1 kv.2) rest) k = _
      rw [pyDictGet_update_none _ _ _ hrest, pyDictGet_set]
      simp [hk, hv]
    · have hrest : pyDictGet rest k = some v := by
        simpa [pyDictGet, hk] using h
      exact ih _ hnd.2 hrest

/-! ## Python string helpers and the two snake_case → camelCase implementations

`pySplitOn sep` models Python `s.split(sep)` for a one-character
separator (`"".split("_") == [""]`, `"_".split("_") == ["", ""]`).
`pyCapitalize` models `str.capitalize()` for ASCII text: first
character uppercased, the rest lowercased. -/

def pySplitOn (sep : Char) : List Char → List (List Char)
  | [] => [[]]
  | c :: cs =>
    if c = sep then [] :: pySplitOn sep cs
    else
      match pySplitOn sep cs with
      | [] => [[c]]
      | g :: gs => (c :: g) :: gs

def pyCapitalize : List Char → List Char
  | [] => []
  | c :: cs => c.toUpper :: cs.map Char.toLower

/-- `_snake_to_camel` from `src/gforms/forms_tools.py` (lines 106-109):
`components = snake_str.split("_")` then
`components[0] + "".join(word.capitalize() for word in components[1:])`. -/
def snake_to_camel_forms (s : List Char) : List Char :=
  match pySplitOn '_' s with
  | [] => []
  | c0 :: rest => c0 ++ (rest.map pyCapitalize).flatten

/-- `GoogleChatCardManager._snake_to_camel` from
`src/gchat/chat_cards_optimized.py` (lines 669-675): it first returns
the input unchanged when `"_" not in snake_str`, otherwise splits and
capitalizes exactly like the forms helper. -/
def snake_to_camel_cards (s : List Char) : List Char :=
  if '_' ∈ s then
    match pySplitOn '_' s with
    | [] => []
    | c0 :: rest => c0 ++ (rest.map pyCapitalize).flatten
  else s

def snakeToCamelFormsStr (s : String) : String :=
  String.mk (snake_to_camel_forms s.data)

def snakeToCamelCardsStr (s : String) : String :=
  String.mk (snake_to_camel_cards s.data)

theorem pySplitOn_of_not_mem (sep : Char) (l : List Char) (h : sep ∉ l) :
    pySplitOn sep l = [l] := by
  induction l with
  | nil => rfl
  | cons c cs ih =>
    have hc : c ≠ sep := fun hc => h (hc ▸ List.mem_cons_self c cs)
    have hcs : sep ∉ cs := fun hm => h (List.mem_cons_of_mem c hm)
    simp [pySplitOn, hc, ih hcs]

/-- Claim C10: the two independent snake_case-to-camelCase
implementations, `_snake_to_camel` in `forms_tools.py` and
`GoogleChatCardManager._snake_to_camel` in `chat_cards_optimized.py`,
compute the same function: for every input string they return equal
results. -/
theorem c10_snake_to_camel_equiv (s : String) :
    snakeToCamelCardsStr s = snakeToCamelFormsStr s := by
  unfold snakeToCamelCardsStr snakeToCamelFormsStr
  congr 1
  unfold snake_to_camel_cards snake_to_camel_forms
  by_cases h : '_' ∈ s.data
  · simp [h]
  · simp [h, pySplitOn_of_not_mem '_' s.data h]

/-! ## Method signature reflection (`BaseAPI._get_method_signature`)

Model of `src/adapters/base_api.py`, lines 200-261.  A Python runtime
type object is abstracted as its optional `__name__` attribute plus its
`str(...)` form; `get_type_hints` is modelled as the association list a
given method carries; `inspect.Parameter.empty` for annotations and
defaults is `Option.none`. -/

structure PyTypeObj where
  pyName : Option String
  strForm : String
deriving DecidableEq

/-- `typing.Any`, whose `__name__` is `"Any"`. -/
def anyTypeObj : PyTypeObj := { pyName := some "Any", strForm := "typing.Any" }

/-- Lines 239-243: `param_type_obj.__name__` when the object has a
`__name__` attribute, otherwise `str(param_type_obj)`. -/
def typeObjDisplay (t : PyTypeObj) : String :=
  match t.pyName with
  | some n => n
  | none => t.strForm

inductive ParamKind
  | positionalOnly
  | positionalOrKeyword
  | varPositional
  | keywordOnly
  | varKeyword
deriving DecidableEq

inductive PyValue
  | pyNone
  | int (n : Int)
  | str (s : String)
  | bool (b : Bool)
deriving DecidableEq

structure PyParam where
  name : String
  annot : Option PyTypeObj
  default : Option PyValue
  kind : ParamKind
deriving DecidableEq

structure PyMethod where
  methodName : String
  doc : Option String
  params : List PyParam
  typeHints : List (String × PyTypeObj)
deriving DecidableEq

/-- Lines 230-236 of `base_api.py`, translated exactly as written:

    param_type_obj = type_hints.get(name, None)
    if param_type_obj is None and param.annotation != inspect.Parameter.empty:
        param_type_obj = param.annotation
    else:
        param_type_obj = Any

Note the `else` arm runs precisely when the live hint WAS found (or when
both hint and annotation are missing), overwriting it with `Any`. -/
def resolvedTypeObj (hint : Option PyTypeObj) (annot : Option PyTypeObj) :
    PyTypeObj :=
  if hint = none ∧ annot ≠ none then annot.getD anyTypeObj
  else anyTypeObj

/-- Modelled from the spec: the resolution the spec (and the code's own
comments) describe — use the live hint when available, otherwise fall
back to the raw annotation, defaulting to `Any` when neither exists.
Kept separate so it can be compared with `resolvedTypeObj`, the
translation of the code as written. -/
def resolvedTypeObjSpec (hint : Option PyTypeObj) (annot : Option PyTypeObj) :
    PyTypeObj :=
  match hint with
  | some h => h
  | none => annot.getD anyTypeObj

structure ParamRecord where
  type : String
  default : PyValue
  required : Bool
deriving DecidableEq

/-- The per-parameter `{type, default, required}` record built by the
loop at lines 226-253 of `base_api.py`. -/
def mkParamRecord (m : PyMethod) (p : PyParam) : ParamRecord :=
  { type := typeObjDisplay (resolvedTypeObj (pyDictGet m.typeHints p.name) p.annot),
    default := p.default.getD PyValue.pyNone,
    required := p.default.isNone
      && !(decide (p.kind = ParamKind.varPositional))
      && !(decide (p.kind = ParamKind.varKeyword)) }

structure MethodSigRecord where
  sigName : String
  docstring : String
  parameters : List (String × ParamRecord)
  returnName : Option String
deriving DecidableEq

/-- `BaseAPI._get_method_signature` (lines 200-261): skips `self`,
builds the parameter records in signature order, and reads the return
type name from `type_hints.get("return", Any).__name__` (`none` models
the `AttributeError` raised when that object has no `__name__`). -/
def getMethodSignature (m : PyMethod) : MethodSigRecord :=
  { sigName := m.methodName,
    docstring := m.doc.getD "",
    parameters := (m.params.filter (fun p => p.name != "self")).map
      (fun p => (p.name, mkParamRecord m p)),
    returnName := ((pyDictGet m.typeHints "return").getD anyTypeObj).pyName }

/-- The `int` runtime type object. -/
def intTypeObj : PyTypeObj := { pyName := some "int", strForm := "class int" }

/-- Concrete method `def send_message(self, x: int) -> str`: the live
type hints resolve `x` to `int`. -/
def sendMessageMethod : PyMethod :=
  { methodName := "send_message",
    doc := some "Send a message.",
    params := [{ name := "self", annot := none, default := none,
                 kind := ParamKind.positionalOrKeyword },
               { name := "x", annot := some intTypeObj, default := none,
                 kind := ParamKind.positionalOrKeyword }],
    typeHints := [("x", intTypeObj)] }

/-- Claim C1 (code bug): for the parameter `x : int` of
`sendMessageMethod`, whose live type hint resolves to `int`, the code
records the type `"Any"`: the `else` arm at `base_api.py:233-236`
overwrites every successfully resolved hint with `Any`, while the
resolution the spec and the code's own comments describe would record
`"int"`.  The first conjunct evaluates the code at the failing input,
the second evaluates the spec-described resolution there, the third
shows the full signature record produced for `x`. -/
theorem c1_hint_overwritten_with_any :
    typeObjDisplay (resolvedTypeObj (some intTypeObj) (some intTypeObj)) = "Any"
    ∧ typeObjDisplay (resolvedTypeObjSpec (some intTypeObj) (some intTypeObj)) = "int"
    ∧ pyDictGet (getMethodSignature sendMessageMethod).parameters "x"
        = some { type := "Any", default := PyValue.pyNone, required := true } := by
  refine ⟨rfl, rfl, ?_⟩
  decide

/-- Concrete method `def call_any(self, *args)`. -/
def varargsMethod : PyMethod :=
  { methodName := "call_any",
    doc := none,
    params := [{ name := "self", annot := none, default := none,
                 kind := ParamKind.positionalOrKeyword },
               { name := "args", annot := none, default := none,
                 kind := ParamKind.varPositional }],
    typeHints := [] }

def argsParam : PyParam :=
  { name := "args", annot := none, default := none,
    kind := ParamKind.varPositional }

/-- Claim C2, as stated, is false: it says a parameter is marked
required exactly when it has no default, but the `*args` parameter of
`varargsMethod` has no default (`inspect.Parameter.empty`) and is still
marked `required = False`, because lines 250-252 of `base_api.py` also
demand that the kind be neither VAR_POSITIONAL nor VAR_KEYWORD. -/
theorem c2_counterexample_varargs :
    ¬ (∀ (m : PyMethod) (p : PyParam), p ∈ m.params → p.name ≠ "self" →
        ((mkParamRecord m p).required = true ↔ p.default = none)) := by
  intro h
  have h2 := h varargsMethod argsParam (by decide) (by decide)
  exact absurd (h2.mpr rfl) (by decide)

/-- Claim C2 (amended): for every method and every parameter other than
`self`, the signature record marks the parameter required exactly when
it has no default value AND is not a var-positional (`*args`) or
var-keyword (`**kwargs`) parameter, and stores `None` as the recorded
default whenever there is no default. -/
theorem c2_required_iff_no_default_amended (m : PyMethod) (p : PyParam)
    (hp : p ∈ m.params) (hself : p.name ≠ "self") :
    (p.name, mkParamRecord m p) ∈ (getMethodSignature m).parameters
    ∧ ((mkParamRecord m p).required = true ↔
        (p.default = none ∧ p.kind ≠ ParamKind.varPositional
          ∧ p.kind ≠ ParamKind.varKeyword))
    ∧ (p.default = none → (mkParamRecord m p).default = PyValue.pyNone) := by
  refine ⟨?_, ?_, ?_⟩
  · unfold getMethodSignature
    simp only [List.mem_map]
    refine ⟨p, ?_, rfl⟩
    simp [List.mem_filter, hp, hself]
  · simp [mkParamRecord, Bool.and_eq_true, Option.isNone_iff_eq_none,
      and_assoc]
  · intro hd
    simp [mkParamRecord, hd]

theorem c2_witness :
    ("args", mkParamRecord varargsMethod argsParam)
      ∈ (getMethodSignature varargsMethod).parameters
    ∧ ((mkParamRecord varargsMethod argsParam).required = true ↔
        (argsParam.default = none ∧ argsParam.kind ≠ ParamKind.varPositional
          ∧ argsParam.kind ≠ ParamKind.varKeyword))
    ∧ (argsParam.default = none →
        (mkParamRecord varargsMethod argsParam).default = PyValue.pyNone) :=
  c2_required_iff_no_default_amended varargsMethod argsParam (by decide) (by decide)

/-! ## Adapter metadata (`APIAdapter.__init__` / `get_metadata`)

Model of `src/adapters/adapters.py`, lines 27-69.  The metadata values
that occur in `_default_metadata` are strings, string lists, booleans
and `None`, collected in `MetaValue`. -/

inductive MetaValue
  | pyNone
  | str (s : String)
  | strList (l : List String)
  | bool (b : Bool)
deriving DecidableEq

/-- Python `class_name.replace("API", "")`: delete every
(left-to-right, non-overlapping) occurrence of `"API"`. -/
def stripAPI : List Char → List Char
  | [] => []
  | 'A' :: 'P' :: 'I' :: rest => stripAPI rest
  | c :: cs => c :: stripAPI cs

/-- `class_name.replace("API", "").lower()` as used at lines 46-48. -/
def lowerStripAPI (className : String) : String :=
  String.mk ((stripAPI className.data).map Char.toLower)

/-- `self._default_metadata` (lines 44-52). -/
def defaultMetadata (className : String) : List (String × MetaValue) :=
  [("name", MetaValue.str className),
   ("description",
      MetaValue.str ("API for " ++ lowerStripAPI className ++ " services")),
   ("category", MetaValue.str (lowerStripAPI className)),
   ("keywords", MetaValue.strList [lowerStripAPI className]),
   ("requires_auth", MetaValue.bool false),
   ("response_model", MetaValue.pyNone),
   ("version", MetaValue.str "1.0.0")]

structure APIAdapter where
  className : String
  metadata : List (String × MetaValue)

/-- `APIAdapter.__init__` (lines 27-60): `self._metadata` is a copy of
the defaults updated with the provided overrides (`if metadata:` skips
the update for `None`; updating with an empty dict is the identity, so
both cases collapse to the `none` arm here). -/
def APIAdapter.init (className : String)
    (metadata : Option (List (String × MetaValue))) : APIAdapter :=
  { className := className,
    metadata := match metadata with
      | none => defaultMetadata className
      | some m => pyDictUpdate (defaultMetadata className) m }

/-- `APIAdapter.get_metadata` (lines 62-69) builds
`APIMetadata(**self._metadata)`; modelled as the keyword dictionary it
passes, which is exactly the stored `self._metadata`. -/
def APIAdapter.get_metadata (a : APIAdapter) : List (String × MetaValue) :=
  a.metadata

/-- Claim C3: for an adapter built from class name `className` and
override dictionary `M` (with unique keys, as any Python dict has),
`get_metadata` reflects `M`'s value for every key in `M` and the
class-name-derived default for every key absent from `M`; the defaults
are exactly name = class name, description/category/keywords derived
from the class name with `"API"` removed and lowercased,
`requires_auth = False`, `version = "1.0.0"`; and `get_metadata` is a
pure function of the state frozen at construction, so every later call
returns equal metadata. -/
theorem c3_metadata_merge (className : String) (M : List (String × MetaValue))
    (hM : (M.map Prod.fst).Nodup) (k : String) :
    (∀ v, pyDictGet M k = some v →
        pyDictGet (APIAdapter.init className (some M)).get_metadata k = some v)
    ∧ (pyDictGet M k = none →
        pyDictGet (APIAdapter.init className (some M)).get_metadata k
          = pyDictGet (defaultMetadata className) k)
    ∧ pyDictGet (defaultMetadata className) "name"
        = some (MetaValue.str className)
    ∧ pyDictGet (defaultMetadata className) "description"
        = some (MetaValue.str ("API for " ++ lowerStripAPI className ++ " services"))
    ∧ pyDictGet (defaultMetadata className) "category"
        = some (MetaValue.str (lowerStripAPI className))
    ∧ pyDictGet (defaultMetadata className) "keywords"
        = some (MetaValue.strList [lowerStripAPI className])
    ∧ pyDictGet (defaultMetadata className) "requires_auth"
        = some (MetaValue.bool false)
    ∧ pyDictGet (defaultMetadata className) "version"
        = some (MetaValue.str "1.0.0")
    ∧ (APIAdapter.init className (some M)).get_metadata
        = (APIAdapter.init className (some M)).get_metadata := by
  refine ⟨?_, ?_, ?_, ?_, ?_, ?_, ?_, ?_, rfl⟩
  · intro v hv
    exact pyDictGet_update_some M (defaultMetadata className) k v hM hv
  · intro hn
    exact pyDictGet_update_none M (defaultMetadata className) k hn
  all_goals simp [defaultMetadata, pyDictGet]

theorem c3_witness :
    pyDictGet (APIAdapter.init "GoogleChatAPI"
        (some [("name", MetaValue.str "chat")])).get_metadata "name"
      = some (MetaValue.str "chat")
    ∧ pyDictGet (APIAdapter.init "GoogleChatAPI"
        (some [("name", MetaValue.str "chat")])).get_metadata "version"
      = some (MetaValue.str "1.0.0") := by
  constructor
  · exact (c3_metadata_merge "GoogleChatAPI" [("name", MetaValue.str "chat")]
      (by decide) "name").1 (MetaValue.str "chat") (by decide)
  · exact ((c3_metadata_merge "GoogleChatAPI" [("name", MetaValue.str "chat")]
      (by decide) "version").2.1 (by decide)).trans (by decide)

/-! ## `resolve_type` inside `BaseAPI.create_input_model`

Model of `src/adapters/base_api.py`, lines 297-332.  The Python
operations that can raise — `__import__`/`getattr` and `eval` — are
oracles in `ResolveEnv`, returning `Except.error` when the
corresponding Python call raises an `Exception`;
`typing_namespace.get` never raises and is an `Option`-valued oracle. -/

def strTypeObj : PyTypeObj := { pyName := some "str", strForm := "class str" }

def floatTypeObj : PyTypeObj := { pyName := some "float", strForm := "class float" }

def boolTypeObj : PyTypeObj := { pyName := some "bool", strForm := "class bool" }

def listTypeObj : PyTypeObj := { pyName := some "list", strForm := "class list" }

def dictTypeObj : PyTypeObj := { pyName := some "dict", strForm := "class dict" }

structure ResolveEnv where
  importAttr : String → String → Except String PyTypeObj
  evalStr : String → Except String PyTypeObj
  nsGet : String → Option PyTypeObj

/-- `type_str.replace("typing.", "")`: delete every occurrence of the
substring `"typing."`. -/
def removeTypingSub : List Char → List Char
  | [] => []
  | 't' :: 'y' :: 'p' :: 'i' :: 'n' :: 'g' :: '.' :: rest => removeTypingSub rest
  | c :: cs => c :: removeTypingSub cs

def cleanTypeStr (type_str : String) : String :=
  String.mk (removeTypingSub type_str.data)

/-- Python `name.startswith("_")` and friends are single-character
prefix tests on the character list. -/
def startsWithUnderscore (s : String) : Bool :=
  match s.data with
  | '_' :: _ => true
  | _ => false

/-- `clean_type_str.rsplit(".", 1)` for a string containing a dot:
everything before the last `'.'`, and everything after it. -/
def splitLastDot (s : String) : String × String :=
  let rev := s.data.reverse
  let afterRev := rev.takeWhile (fun c => c != '.')
  match rev.drop afterRev.length with
  | [] => (s, "")
  | _ :: beforeRev => (String.mk beforeRev.reverse, String.mk afterRev.reverse)

/-- `resolve_type` (lines 297-332): strip the `typing.` prefix, return
the six basic builtin types directly, try `__import__`/`getattr` for
dotted names that do not start with `Union` (falling back to
`typing_namespace.get(type_name, Any)` on any exception), and otherwise
`eval` the string in the typing namespace, returning `Any` on any
exception. -/
def resolve_type (env : ResolveEnv) (type_str : String) :
    Except String PyTypeObj :=
  let clean := cleanTypeStr type_str
  if clean = "str" then Except.ok strTypeObj
  else if clean = "int" then Except.ok intTypeObj
  else if clean = "float" then Except.ok floatTypeObj
  else if clean = "bool" then Except.ok boolTypeObj
  else if clean = "list" then Except.ok listTypeObj
  else if clean = "dict" then Except.ok dictTypeObj
  else if '.' ∈ clean.data ∧ "Union".data.isPrefixOf clean.data = false then
    match env.importAttr (splitLastDot clean).1 (splitLastDot clean).2 with
    | Except.ok t => Except.ok t
    | Except.error _ =>
        Except.ok ((env.nsGet (splitLastDot clean).2).getD anyTypeObj)
  else
    match env.evalStr clean with
    | Except.ok t => Except.ok t
    | Except.error _ => Except.ok anyTypeObj

def isBasicTypeName (s : String) : Bool :=
  decide (s = "str") || decide (s = "int") || decide (s = "float")
  || decide (s = "bool") || decide (s = "list") || decide (s = "dict")

theorem resolve_type_total (env : ResolveEnv) (ts : String) :
    ∃ t, resolve_type env ts = Except.ok t := by
  unfold resolve_type
  dsimp only
  split_ifs <;>
    first
      | exact ⟨_, rfl⟩
      | (split <;> exact ⟨_, rfl⟩)

/-- Claim C4: `resolve_type` never raises — every call returns a value —
and whenever resolution fails (the import oracle and namespace lookup
fail on the dotted path, or the eval oracle fails on the plain path) it
returns the permissive `Any` type. -/
theorem c4_resolve_type_never_raises (env : ResolveEnv) (ts : String) :
    (∃ t, resolve_type env ts = Except.ok t)
    ∧ (isBasicTypeName (cleanTypeStr ts) = false →
        ('.' ∈ (cleanTypeStr ts).data
          ∧ "Union".data.isPrefixOf (cleanTypeStr ts).data = false) →
        ∀ e, env.importAttr (splitLastDot (cleanTypeStr ts)).1
              (splitLastDot (cleanTypeStr ts)).2 = Except.error e →
          env.nsGet (splitLastDot (cleanTypeStr ts)).2 = none →
          resolve_type env ts = Except.ok anyTypeObj)
    ∧ (isBasicTypeName (cleanTypeStr ts) = false →
        ¬ ('.' ∈ (cleanTypeStr ts).data
            ∧ "Union".data.isPrefixOf (cleanTypeStr ts).data = false) →
        ∀ e, env.evalStr (cleanTypeStr ts) = Except.error e →
          resolve_type env ts = Except.ok anyTypeObj) := by
  refine ⟨resolve_type_total env ts, ?_, ?_⟩
  · intro hb hd e himp hns
    simp only [isBasicTypeName, Bool.or_eq_false_iff,
      decide_eq_false_iff_not] at hb
    obtain ⟨⟨⟨⟨⟨h1, h2⟩, h3⟩, h4⟩, h5⟩, h6⟩ := hb
    unfold resolve_type
    dsimp only
    rw [if_neg h1, if_neg h2, if_neg h3, if_neg h4, if_neg h5, if_neg h6,
      if_pos hd, himp, hns]
    rfl
  · intro hb hd e heval
    simp only [isBasicTypeName, Bool.or_eq_false_iff,
      decide_eq_false_iff_not] at hb
    obtain ⟨⟨⟨⟨⟨h1, h2⟩, h3⟩, h4⟩, h5⟩, h6⟩ := hb
    unfold resolve_type
    dsimp only
    rw [if_neg h1, if_neg h2, if_neg h3, if_neg h4, if_neg h5, if_neg h6,
      if_neg hd, heval]

/-- An environment in which every import and eval raises and the typing
namespace contains nothing: total resolution failure. -/
def failingResolveEnv : ResolveEnv :=
  { importAttr := fun _ _ => Except.error "ImportError",
    evalStr := fun _ => Except.error "NameError",
    nsGet := fun _ => none }

theorem c4_witness :
    resolve_type failingResolveEnv "NotAType" = Except.ok anyTypeObj :=
  (c4_resolve_type_never_raises failingResolveEnv "NotAType").2.2
    (by decide) (by decide) "NameError" rfl

/-! ## `APIAdapter.list_methods` (`src/adapters/adapters.py`, lines 79-101)

`inspect.getmembers(self.api_instance, inspect.ismethod)` is modelled
as the instance's member list restricted by an `isMethod` tag.  For
each surviving name, `_get_method_signature` does NOT use the member
directly: it resolves the name with `getattr(self, method_name, None)`
on the ADAPTER (`base_api.py:211-213`), so the adapter's own instance
attributes and class methods shadow same-named wrapped methods; only
when the adapter has no such attribute does `APIAdapter.__getattr__`
(`adapters.py:103-127`) proxy to the wrapped instance, wrapping bound
methods in a `functools.wraps` closure that preserves signature,
docstring and annotations.  The adapter's own attribute table is the
`ownAttrs` parameter, each entry tagged callable (with its signature)
or non-callable. -/

/-- `resolve_type` run to a value; by `resolve_type_total` the error
arm is unreachable, so `anyTypeObj` there is arbitrary. -/
def resolveRun (env : ResolveEnv) (s : String) : PyTypeObj :=
  match resolve_type env s with
  | Except.ok t => t
  | Except.error _ => anyTypeObj

structure FieldDef where
  fieldType : PyTypeObj
  fieldDefault : Option PyValue
deriving DecidableEq

/-- The field-building loop of `BaseAPI.create_input_model` (lines
285-351), which operates purely on a signature record: one pydantic
field per parameter except `args`/`kwargs`; a required field carries
the Ellipsis marker (`none` here), an optional one its recorded
default. -/
def input_model_of_sig (env : ResolveEnv) (sig : MethodSigRecord) :
    List (String × FieldDef) :=
  (sig.parameters.filter
      (fun pr => pr.1 != "args" && pr.1 != "kwargs")).map
    (fun pr => (pr.1,
      { fieldType := resolveRun env pr.2.type,
        fieldDefault := if pr.2.required then none else some pr.2.default }))

inductive PyAttr
  | method (m : PyMethod)
  | plain
deriving DecidableEq

structure PyInstance where
  members : List (String × PyAttr)
deriving DecidableEq

/-- What `getattr(adapter, name)` can find among the adapter's OWN
attributes: a callable (a bound method of the adapter itself, with its
signature) or a non-callable value (`api_instance`, `class_name`,
`methods`, ...). -/
inductive AdapterOwn
  | callableAttr (m : PyMethod)
  | plainAttr
deriving DecidableEq

/-- `BaseAPI._get_method_signature` at the adapter (lines 200-261 with
the lookup of lines 211-213): `getattr(self, method_name, None)` finds
the adapter's own attribute first; otherwise `__getattr__` proxies to
the wrapped instance (the `functools.wraps` wrapper preserves the
method's signature, docstring and annotations); `None` or a
non-callable yields `None`. -/
def adapter_get_method_signature (ownAttrs : List (String × AdapterOwn))
    (inst : PyInstance) (name : String) : Option MethodSigRecord :=
  match pyDictGet ownAttrs name with
  | some (AdapterOwn.callableAttr m) => some (getMethodSignature m)
  | some AdapterOwn.plainAttr => none
  | none =>
    match pyDictGet inst.members name with
    | some (PyAttr.method m) => some (getMethodSignature m)
    | some PyAttr.plain => none
    | none => none

/-- `BaseAPI.create_input_model` (lines 263-354): re-runs
`_get_method_signature` and raises `ValueError` when it returns `None`
(unreachable under `list_methods`' `if method_sig:` guard). -/
def create_input_model (env : ResolveEnv)
    (ownAttrs : List (String × AdapterOwn)) (inst : PyInstance)
    (name : String) : Except String (List (String × FieldDef)) :=
  match adapter_get_method_signature ownAttrs inst name with
  | none => Except.error "ValueError"
  | some sig => Except.ok (input_model_of_sig env sig)

/-- `APIAdapter.list_methods` (lines 79-101): walk the instance's bound
methods, skip names starting with `"_"`, resolve each survivor through
`_get_method_signature` (adapter-level lookup) and keep it only when
that returned a record (`if method_sig:`), pairing it with the input
model built from the same resolved signature. -/
def list_methods (env : ResolveEnv) (ownAttrs : List (String × AdapterOwn))
    (inst : PyInstance) :
    List (String × (MethodSigRecord × List (String × FieldDef))) :=
  inst.members.filterMap (fun nm =>
    match nm.2 with
    | PyAttr.method _ =>
      if startsWithUnderscore nm.1 then none
      else
        match adapter_get_method_signature ownAttrs inst nm.1 with
        | some sig => some (nm.1, (sig, input_model_of_sig env sig))
        | none => none
    | PyAttr.plain => none)

/-- The adapter's own attributes, as `APIAdapter.__init__`
(`adapters.py:27-60`) and its class body leave them: the seven
non-callable instance attributes plus the public callable
`get_metadata` (signature `def get_metadata(self) -> APIMetadata`). -/
def adapterGetMetadataMethod : PyMethod :=
  { methodName := "get_metadata",
    doc := some "Return metadata about this API implementation.",
    params := [{ name := "self", annot := none, default := none,
                 kind := ParamKind.positionalOrKeyword }],
    typeHints := [("return",
      { pyName := some "APIMetadata", strForm := "class APIMetadata" })] }

def apiAdapterOwnAttrs : List (String × AdapterOwn) :=
  [("api_instance", AdapterOwn.plainAttr),
   ("api_class", AdapterOwn.plainAttr),
   ("class_name", AdapterOwn.plainAttr),
   ("module_name", AdapterOwn.plainAttr),
   ("methods", AdapterOwn.plainAttr),
   ("_default_metadata", AdapterOwn.plainAttr),
   ("_metadata", AdapterOwn.plainAttr),
   ("get_metadata", AdapterOwn.callableAttr adapterGetMetadataMethod)]

/-- A wrapped public method named `methods`, shadowed by the adapter's
non-callable `self.methods` dict. -/
def wrappedMethodsMethod : PyMethod :=
  { methodName := "methods",
    doc := some "List the service methods.",
    params := [{ name := "self", annot := none, default := none,
                 kind := ParamKind.positionalOrKeyword }],
    typeHints := [] }

/-- A wrapped public method named `get_metadata`, shadowed by the
adapter's own `get_metadata`; its signature (an extra `verbose: bool`
parameter) differs from the adapter's. -/
def wrappedGetMetadataMethod : PyMethod :=
  { methodName := "get_metadata",
    doc := some "Service metadata.",
    params := [{ name := "self", annot := none, default := none,
                 kind := ParamKind.positionalOrKeyword },
               { name := "verbose", annot := some boolTypeObj, default := none,
                 kind := ParamKind.positionalOrKeyword }],
    typeHints := [("verbose", boolTypeObj)] }

/-- A wrapped instance with public methods `methods`, `get_metadata`
and `send_message`, plus a private method and a plain attribute. -/
def shadowedInstance : PyInstance :=
  { members := [("methods", PyAttr.method wrappedMethodsMethod),
                ("get_metadata", PyAttr.method wrappedGetMetadataMethod),
                ("send_message", PyAttr.method sendMessageMethod),
                ("_refresh_token", PyAttr.method varargsMethod),
                ("base_url", PyAttr.plain)] }

/-- Claim C5, as stated, is false: the wrapped instance's public bound
method `methods` is absent from `list_methods`' keys, because
`getattr(adapter, "methods")` finds the adapter's own non-callable
`methods` dict and `_get_method_signature` returns `None`
(`base_api.py:211-213`), so `adapters.py:97` drops the name.
Moreover the key `get_metadata` is paired with the ADAPTER's
`get_metadata` signature, not the wrapped method's, so the claimed
pairing fails too. -/
theorem c5_counterexample_shadowing :
    ("methods", PyAttr.method wrappedMethodsMethod) ∈ shadowedInstance.members
    ∧ startsWithUnderscore "methods" = false
    ∧ (list_methods failingResolveEnv apiAdapterOwnAttrs shadowedInstance).map
        Prod.fst = ["get_metadata", "send_message"]
    ∧ pyDictGet (list_methods failingResolveEnv apiAdapterOwnAttrs
          shadowedInstance) "get_metadata"
        = some (getMethodSignature adapterGetMetadataMethod,
            input_model_of_sig failingResolveEnv
              (getMethodSignature adapterGetMetadataMethod))
    ∧ getMethodSignature adapterGetMetadataMethod
        ≠ getMethodSignature wrappedGetMetadataMethod := by
  refine ⟨by decide, rfl, by decide, by decide, by decide⟩

/-- Claim C5 (amended): the keys of `list_methods` are exactly the
names of the instance's bound methods that do not start with an
underscore AND whose adapter-level `getattr` resolution yields a
callable (adapter attributes shadow same-named wrapped methods; a name
shadowed by a non-callable adapter attribute is dropped); each key is
paired with the signature record and synthesized input model of the
attribute the adapter lookup resolves to; no name starting with `'_'`
ever appears. -/
theorem c5_list_methods_keys_amended (env : ResolveEnv)
    (ownAttrs : List (String × AdapterOwn)) (inst : PyInstance) :
    (∀ n, (∃ e, (n, e) ∈ list_methods env ownAttrs inst) ↔
        ((∃ m, (n, PyAttr.method m) ∈ inst.members)
          ∧ startsWithUnderscore n = false
          ∧ ∃ sig, adapter_get_method_signature ownAttrs inst n = some sig))
    ∧ (∀ n e, (n, e) ∈ list_methods env ownAttrs inst →
        startsWithUnderscore n = false)
    ∧ (∀ n sig, (∃ m, (n, PyAttr.method m) ∈ inst.members) →
        startsWithUnderscore n = false →
        adapter_get_method_signature ownAttrs inst n = some sig →
        (n, (sig, input_model_of_sig env sig))
          ∈ list_methods env ownAttrs inst) := by
  have hmem : ∀ n e, (n, e) ∈ list_methods env ownAttrs inst ↔
      ∃ a ∈ inst.members,
        (match a.2 with
          | PyAttr.method _ =>
            if startsWithUnderscore a.1 then none
            else
              match adapter_get_method_signature ownAttrs inst a.1 with
              | some sig => some (a.1, (sig, input_model_of_sig env sig))
              | none => none
          | PyAttr.plain => none) = some (n, e) := by
    intro n e
    simp [list_methods, List.mem_filterMap]
  refine ⟨?_, ?_, ?_⟩
  · intro n
    constructor
    · rintro ⟨e, he⟩
      rcases (hmem n e).mp he with ⟨⟨n', attr⟩, ha, heq⟩
      cases attr with
      | plain => simp at heq
      | method m =>
        by_cases hu : startsWithUnderscore n'
        · simp [hu] at heq
        · simp only [hu, if_false] at heq
          cases hsig : adapter_get_method_signature ownAttrs inst n' with
          | none => rw [hsig] at heq; simp at heq
          | some sig =>
            rw [hsig] at heq
            have hn : n' = n := congrArg Prod.fst (Option.some.inj heq)
            subst hn
            exact ⟨⟨m, ha⟩, by simpa using hu, sig, hsig⟩
    · rintro ⟨⟨m, hm⟩, hu, sig, hsig⟩
      refine ⟨(sig, input_model_of_sig env sig), ?_⟩
      exact (hmem n _).mpr ⟨(n, PyAttr.method m), hm, by simp [hu, hsig]⟩
  · intro n e he
    rcases (hmem n e).mp he with ⟨⟨n', attr⟩, _, heq⟩
    cases attr with
    | plain => simp at heq
    | method m =>
      by_cases hu : startsWithUnderscore n'
      · simp [hu] at heq
      · cases hsig : adapter_get_method_signature ownAttrs inst n' with
        | none => simp [hu, hsig] at heq
        | some sig =>
          simp only [hu, if_false, hsig] at heq
          have hn : n' = n := congrArg Prod.fst (Option.some.inj heq)
          subst hn
          simpa using hu
  · intro n sig hex hu hsig
    rcases hex with ⟨m, hm⟩
    exact (hmem n _).mpr ⟨(n, PyAttr.method m), hm, by simp [hu, hsig]⟩

theorem c5_witness :
    ("send_message",
      (getMethodSignature sendMessageMethod,
       input_model_of_sig failingResolveEnv
         (getMethodSignature sendMessageMethod)))
      ∈ list_methods failingResolveEnv apiAdapterOwnAttrs shadowedInstance :=
  (c5_list_methods_keys_amended failingResolveEnv apiAdapterOwnAttrs
      shadowedInstance).2.2
    "send_message" (getMethodSignature sendMessageMethod)
    ⟨sendMessageMethod, by decide⟩ (by decide) (by decide)

/-! ## `DiscoveryManager` (`src/adapters/discovery_manager.py`)

The filesystem walk performed by `_discover_apis` / `_discover_configs`
is abstracted as the sequence of `name ↦ path` insertions it performs
(in `rglob` order); the manager state is the two path tables plus the
`_discovered` flag. -/

structure DiscoveryFS where
  apiScan : List (String × String)
  configScan : List (String × String)

structure DMState where
  apiPaths : List (String × String)
  configPaths : List (String × String)
  discovered : Bool
deriving DecidableEq

/-- `DiscoveryManager.discover` (lines 34-50): a no-op when
`_discovered` is already set; otherwise `_discover_apis` and
`_discover_configs` insert their findings into the existing tables and
the flag is set. -/
def DMState.discover (fs : DiscoveryFS) (s : DMState) : DMState :=
  if s.discovered then s
  else
    { apiPaths := pyDictUpdate s.apiPaths fs.apiScan,
      configPaths := pyDictUpdate s.configPaths fs.configScan,
      discovered := true }

/-- The `if not self._discovered: self.discover()` prelude shared by
every accessor (lines 124-125, 138-139, 149-150, 160-161, 198-199,
209-210). -/
def DMState.ensure (fs : DiscoveryFS) (s : DMState) : DMState :=
  if s.discovered then s else s.discover fs

def DMState.get_api_path (fs : DiscoveryFS) (s : DMState) (name : String) :
    DMState × Option String :=
  let s' := s.ensure fs
  (s', pyDictGet s'.apiPaths name)

def DMState.get_config_path (fs : DiscoveryFS) (s : DMState) (name : String) :
    DMState × Option String :=
  let s' := s.ensure fs
  (s', pyDictGet s'.configPaths name)

def DMState.list_apis (fs : DiscoveryFS) (s : DMState) :
    DMState × List String :=
  let s' := s.ensure fs
  (s', s'.apiPaths.map Prod.fst)

def DMState.list_configs (fs : DiscoveryFS) (s : DMState) :
    DMState × List String :=
  let s' := s.ensure fs
  (s', s'.configPaths.map Prod.fst)

def DMState.get_api_paths (fs : DiscoveryFS) (s : DMState) :
    DMState × List (String × String) :=
  let s' := s.ensure fs
  (s', s'.apiPaths)

def DMState.get_config_paths (fs : DiscoveryFS) (s : DMState) :
    DMState × List (String × String) :=
  let s' := s.ensure fs
  (s', s'.configPaths)

/-- `DiscoveryManager.refresh` (lines 213-219): clear both tables,
reset the flag, re-discover. -/
def DMState.refresh (fs : DiscoveryFS) (_s : DMState) : DMState :=
  DMState.discover fs { apiPaths := [], configPaths := [], discovered := false }

/-- Claim C6: every accessor first populates the tables via `discover`
(so after any accessor the state is exactly `discover fs s` and the
flag is set); `discover` is idempotent, and on an already-populated
state it is the identity, so no accessor ever changes a populated
state; only `refresh` clears the tables and rebuilds them from a blank
state. -/
theorem c6_discovery_lazy_idempotent (fs : DiscoveryFS) (s : DMState) :
    (∀ name, (DMState.get_api_path fs s name).1 = s.discover fs)
    ∧ (∀ name, (DMState.get_config_path fs s name).1 = s.discover fs)
    ∧ (DMState.list_apis fs s).1 = s.discover fs
    ∧ (DMState.list_configs fs s).1 = s.discover fs
    ∧ (DMState.get_api_paths fs s).1 = s.discover fs
    ∧ (DMState.get_config_paths fs s).1 = s.discover fs
    ∧ (s.discover fs).discovered = true
    ∧ DMState.discover fs (s.discover fs) = s.discover fs
    ∧ (s.discovered = true → s.discover fs = s)
    ∧ DMState.refresh fs s
        = { apiPaths := pyDictUpdate [] fs.apiScan,
            configPaths := pyDictUpdate [] fs.configScan,
            discovered := true } := by
  have hens : s.ensure fs = s.discover fs := by
    unfold DMState.ensure DMState.discover
    by_cases h : s.discovered <;> simp [h]
  have hflag : (s.discover fs).discovered = true := by
    unfold DMState.discover
    by_cases h : s.discovered <;> simp [h]
  refine ⟨?_, ?_, ?_, ?_, ?_, ?_, hflag, ?_, ?_, ?_⟩
  · intro name
    simp [DMState.get_api_path, hens]
  · intro name
    simp [DMState.get_config_path, hens]
  · simp [DMState.list_apis, hens]
  · simp [DMState.list_configs, hens]
  · simp [DMState.get_api_paths, hens]
  · simp [DMState.get_config_paths, hens]
  · unfold DMState.discover
    by_cases h : s.discovered <;> simp [h]
  · intro h
    unfold DMState.discover
    simp [h]
  · rfl

def sampleFS : DiscoveryFS :=
  { apiScan := [("chat_tools", "src/gchat/chat_tools.py")],
    configScan := [("config", "config.yaml")] }

def populatedDM : DMState :=
  { apiPaths := [("chat_tools", "src/gchat/chat_tools.py")],
    configPaths := [("config", "config.yaml")],
    discovered := true }

theorem c6_witness :
    DMState.discover sampleFS populatedDM = populatedDM :=
  (c6_discovery_lazy_idempotent sampleFS populatedDM).2.2.2.2.2.2.2.2.1 rfl

/-! ## Forms tools (`src/gforms/forms_tools.py`)

`add_questions_to_form` (lines 940-1079) and the tail of
`update_form_questions` (lines 1523-1546).  The question dictionaries
and batchUpdate request bodies are opaque type parameters;
`_build_question_requests` and the remote `batchUpdate` call are
function parameters, the latter returning `Except.error` when the
Google API client raises an `HttpError`.  The returned pair is the
function's string result together with whether a `batchUpdate` request
was issued. -/

structure HttpError where
  msg : String
deriving DecidableEq

/-- The body of `add_questions_to_form` after the insertion index `idx`
has been validated (lines 1056-1079). -/
def addQuestionsBody {Q R : Type} (user_google_email form_id : String)
    (questions : List Q) (idx : Int)
    (buildRequests : List Q → Int → List R)
    (batchUpdate : List R → Except HttpError Unit) : String × Bool :=
  let question_requests := buildRequests questions idx
  if question_requests.isEmpty then
    ("No valid questions to add to form " ++ form_id ++ " for "
       ++ user_google_email ++ ". Check question types and required fields.",
     false)
  else
    match batchUpdate question_requests with
    | Except.ok _ =>
        ("Successfully added " ++ toString question_requests.length
           ++ " questions to form " ++ form_id ++ " for " ++ user_google_email
           ++ ". Questions were inserted starting at index "
           ++ toString idx ++ ".",
         true)
    | Except.error e =>
        ("Failed to add questions to form " ++ form_id ++ ": " ++ e.msg, true)

/-- `add_questions_to_form` (lines 940-1079): return early on an empty
question list; fetch the form and validate `insert_at_index` against
the current item count (defaulting to appending at the end); then build
the batch requests and issue the single `batchUpdate`, catching
`HttpError`. -/
def add_questions_to_form {Q R : Type} (user_google_email form_id : String)
    (current_item_count : Nat) (questions : List Q)
    (insert_at_index : Option Int)
    (buildRequests : List Q → Int → List R)
    (batchUpdate : List R → Except HttpError Unit) : String × Bool :=
  if questions.isEmpty then
    ("No questions provided to add to form " ++ form_id ++ " for "
       ++ user_google_email ++ ".",
     false)
  else
    match insert_at_index with
    | none =>
        addQuestionsBody user_google_email form_id questions
          (current_item_count : Int) buildRequests batchUpdate
    | some i =>
        if i < 0 ∨ i > (current_item_count : Int) then
          ("Invalid insertion index " ++ toString i ++ ". Form " ++ form_id
             ++ " currently has " ++ toString current_item_count
             ++ " items. Valid range: 0-" ++ toString current_item_count ++ ".",
           false)
        else
          addQuestionsBody user_google_email form_id questions i
            buildRequests batchUpdate

/-- The tail of `update_form_questions` (lines 1523-1546), taking the
already-built update requests: report when none were generated,
otherwise issue the `batchUpdate` and catch `HttpError`. -/
def update_form_questions_tail {R : Type} (user_google_email form_id : String)
    (requests : List R)
    (batchUpdate : List R → Except HttpError Unit) : String :=
  if requests.isEmpty then
    "No valid update requests generated for form " ++ form_id ++ " for "
      ++ user_google_email ++ "."
  else
    match batchUpdate requests with
    | Except.ok _ =>
        "Successfully updated " ++ toString requests.length
          ++ " questions in form " ++ form_id ++ " for " ++ user_google_email ++ "."
    | Except.error e =>
        "Failed to update questions in form " ++ form_id ++ ": " ++ e.msg

/-- Claim C7: an out-of-range `insert_at_index` (negative or above the
item count) makes `add_questions_to_form` return the explanatory string
naming the invalid index and the valid range `0..item_count` with no
`batchUpdate` issued, and an empty question list likewise returns an
explanatory string with no remote mutation. -/
theorem c7_local_validation (Q R : Type) (user fid : String) (count : Nat)
    (iopt : Option Int) (qs : List Q) (i : Int)
    (build : List Q → Int → List R)
    (batch : List R → Except HttpError Unit) :
    (add_questions_to_form user fid count ([] : List Q) iopt build batch
      = ("No questions provided to add to form " ++ fid ++ " for "
           ++ user ++ ".", false))
    ∧ (qs ≠ [] → (i < 0 ∨ i > (count : Int)) →
        add_questions_to_form user fid count qs (some i) build batch
          = ("Invalid insertion index " ++ toString i ++ ". Form " ++ fid
               ++ " currently has " ++ toString count
               ++ " items. Valid range: 0-" ++ toString count ++ ".", false)) := by
  constructor
  · simp [add_questions_to_form]
  · intro hqs hi
    have hne : qs.isEmpty = false := by
      cases qs with
      | nil => exact absurd rfl hqs
      | cons a l => rfl
    simp [add_questions_to_form, hne, hi]

theorem c7_witness :
    (add_questions_to_form "u@example.com" "form1" 2 ([] : List Unit)
        (some 5) (fun _ _ => ([] : List Unit)) (fun _ => Except.ok ())
      = ("No questions provided to add to form form1 for u@example.com.",
         false))
    ∧ (add_questions_to_form "u@example.com" "form1" 2 [()] (some 5)
        (fun _ _ => ([] : List Unit)) (fun _ => Except.ok ())
      = ("Invalid insertion index 5. Form form1 currently has 2 items. Valid range: 0-2.",
         false)) := by
  have h := c7_local_validation Unit Unit "u@example.com" "form1" 2 (some 5)
    [()] 5 (fun _ _ => ([] : List Unit)) (fun _ => Except.ok ())
  refine ⟨h.1, ?_⟩
  have h2 := h.2 (by simp) (by norm_num)
  rw [h2]
  rfl

/-- Claim C8: whenever the remote `batchUpdate` raises an `HttpError`,
both `add_questions_to_form` (on either insertion path that reaches the
remote call) and `update_form_questions` catch it and return the
formatted failure string that embeds the original error, instead of
propagating the exception. -/
theorem c8_http_error_formatted :
    (∀ (Q R : Type) (user fid : String) (count : Nat) (qs : List Q)
        (build : List Q → Int → List R)
        (batch : List R → Except HttpError Unit) (e : HttpError),
      qs ≠ [] → build qs (count : Int) ≠ [] →
      batch (build qs (count : Int)) = Except.error e →
      add_questions_to_form user fid count qs none build batch
        = ("Failed to add questions to form " ++ fid ++ ": " ++ e.msg, true))
    ∧ (∀ (Q R : Type) (user fid : String) (count : Nat) (qs : List Q)
        (i : Int) (build : List Q → Int → List R)
        (batch : List R → Except HttpError Unit) (e : HttpError),
      qs ≠ [] → ¬ (i < 0 ∨ i > (count : Int)) → build qs i ≠ [] →
      batch (build qs i) = Except.error e →
      add_questions_to_form user fid count qs (some i) build batch
        = ("Failed to add questions to form " ++ fid ++ ": " ++ e.msg, true))
    ∧ (∀ (R : Type) (user fid : String) (requests : List R)
        (batch : List R → Except HttpError Unit) (e : HttpError),
      requests ≠ [] → batch requests = Except.error e →
      update_form_questions_tail user fid requests batch
        = "Failed to update questions in form " ++ fid ++ ": " ++ e.msg) := by
  refine ⟨?_, ?_, ?_⟩
  · intro Q R user fid count qs build batch e hqs hreq hbatch
    have hne : qs.isEmpty = false := by
      cases qs with
      | nil => exact absurd rfl hqs
      | cons a l => rfl
    have hrne : (build qs (count : Int)).isEmpty = false := by
      cases hb : build qs (count : Int) with
      | nil => exact absurd hb hreq
      | cons a l => rfl
    simp [add_questions_to_form, addQuestionsBody, hne, hrne, hbatch]
  · intro Q R user fid count qs i build batch e hqs hi hreq hbatch
    have hne : qs.isEmpty = false := by
      cases qs with
      | nil => exact absurd rfl hqs
      | cons a l => rfl
    have hrne : (build qs i).isEmpty = false := by
      cases hb : build qs i with
      | nil => exact absurd hb hreq
      | cons a l => rfl
    simp [add_questions_to_form, addQuestionsBody, hne, hi, hrne, hbatch]
  · intro R user fid requests batch e hreq hbatch
    have hrne : requests.isEmpty = false := by
      cases requests with
      | nil => exact absurd rfl hreq
      | cons a l => rfl
    simp [update_form_questions_tail, hrne, hbatch]

theorem c8_witness :
    (add_questions_to_form "u@example.com" "form1" 2 [()] none
        (fun _ _ => [()])
        (fun _ => Except.error (HttpError.mk "HttpError 403"))
      = ("Failed to add questions to form form1: HttpError 403", true))
    ∧ (update_form_questions_tail "u@example.com" "form1" [()]
        (fun _ => Except.error (HttpError.mk "HttpError 403"))
      = "Failed to update questions in form form1: HttpError 403") := by
  constructor
  · have h := c8_http_error_formatted.1 Unit Unit "u@example.com" "form1" 2
      [()] (fun _ _ => [()])
      (fun _ => Except.error (HttpError.mk "HttpError 403"))
      (HttpError.mk "HttpError 403") (by simp) (by simp) rfl
    rw [h]
    rfl
  · have h := c8_http_error_formatted.2.2 Unit "u@example.com" "form1" [()]
      (fun _ => Except.error (HttpError.mk "HttpError 403"))
      (HttpError.mk "HttpError 403") (by simp) rfl
    rw [h]
    rfl

/-! ## `AdapterRegistry` (`src/adapters/adapter_registry.py`)

State: the `_adapters`, `_metadata_cache` and `_usage_stats` dicts.
The factory call in `register` is abstracted by passing the created
adapter; `self._usage_stats[name] += 1` and `del d[name]` raise
`KeyError` when the key is absent, modelled with `Except`. -/

structure Registry where
  adapters : List (String × APIAdapter)
  metadataCache : List (String × List (String × MetaValue))
  usageStats : List (String × Nat)

def Registry.empty : Registry :=
  { adapters := [], metadataCache := [], usageStats := [] }

/-- `AdapterRegistry.register` (lines 33-52): store the adapter, cache
its metadata, zero its usage counter. -/
def Registry.register (r : Registry) (name : String) (a : APIAdapter) :
    Registry :=
  { adapters := pyDictSet r.adapters name a,
    metadataCache := pyDictSet r.metadataCache name a.get_metadata,
    usageStats := pyDictSet r.usageStats name 0 }

/-- `AdapterRegistry.register_google_workspace_adapter` (lines 54-76):
identical registry mutations, with the adapter coming from the other
factory method. -/
def Registry.register_google_workspace_adapter (r : Registry) (name : String)
    (a : APIAdapter) : Registry :=
  { adapters := pyDictSet r.adapters name a,
    metadataCache := pyDictSet r.metadataCache name a.get_metadata,
    usageStats := pyDictSet r.usageStats name 0 }

/-- `AdapterRegistry.get_adapter` (lines 78-91): on a hit,
`self._usage_stats[name] += 1` — a `KeyError` (`Except.error`) if the
counter is missing — then the adapter is returned. -/
def Registry.get_adapter (r : Registry) (name : String) :
    Except String (Option APIAdapter × Registry) :=
  match pyDictGet r.adapters name with
  | none => Except.ok (none, r)
  | some a =>
    match pyDictGet r.usageStats name with
    | none => Except.error "KeyError"
    | some n =>
        Except.ok (some a,
          { r with usageStats := pyDictSet r.usageStats name (n + 1) })

/-- `AdapterRegistry.get_usage_stats` (lines 132-142):
`self._usage_stats.get(name, 0)`. -/
def Registry.get_usage_stats (r : Registry) (name : String) : Nat :=
  (pyDictGet r.usageStats name).getD 0

/-- `AdapterRegistry.unregister` (lines 185-201): when the name is
registered, delete it from all three tables (`del` on a missing key in
the cache or stats would raise `KeyError`); otherwise report `False`. -/
def Registry.unregister (r : Registry) (name : String) :
    Except String (Registry × Bool) :=
  if pyDictContains r.adapters name then
    match pyDictGet r.metadataCache name, pyDictGet r.usageStats name with
    | some _, some _ =>
        Except.ok
          ({ adapters := pyDictDel r.adapters name,
             metadataCache := pyDictDel r.metadataCache name,
             usageStats := pyDictDel r.usageStats name }, true)
    | _, _ => Except.error "KeyError"
  else Except.ok (r, false)

/-- `AdapterRegistry.clear` (lines 203-208). -/
def Registry.clear (_r : Registry) : Registry := Registry.empty

/-- The registry states reachable from a fresh registry through the
public mutating operations. -/
inductive Reach : Registry → Prop
  | init : Reach Registry.empty
  | register (r : Registry) (name : String) (a : APIAdapter) :
      Reach r → Reach (r.register name a)
  | register_gw (r : Registry) (name : String) (a : APIAdapter) :
      Reach r → Reach (r.register_google_workspace_adapter name a)
  | get_adapter (r : Registry) (name : String) (res : Option APIAdapter)
      (r' : Registry) :
      Reach r → r.get_adapter name = Except.ok (res, r') → Reach r'
  | unregister (r : Registry) (name : String) (r' : Registry) (b : Bool) :
      Reach r → r.unregister name = Except.ok (r', b) → Reach r'
  | clear (r : Registry) : Reach r → Reach r.clear

/-- The three tables are keyed identically. -/
def keysAligned (r : Registry) : Prop :=
  ∀ k, ((pyDictGet r.adapters k).isSome = (pyDictGet r.metadataCache k).isSome)
    ∧ ((pyDictGet r.adapters k).isSome = (pyDictGet r.usageStats k).isSome)

theorem reach_keysAligned {r : Registry} (h : Reach r) : keysAligned r := by
  induction h with
  | init => intro k; simp [Registry.empty, pyDictGet]
  | register r name a _ ih =>
    intro k
    have hk := ih k
    simp only [Registry.register, pyDictGet_set]
    by_cases hkn : k = name
    · simp [hkn]
    · simpa [hkn] using hk
  | register_gw r name a _ ih =>
    intro k
    have hk := ih k
    simp only [Registry.register_google_workspace_adapter, pyDictGet_set]
    by_cases hkn : k = name
    · simp [hkn]
    · simpa [hkn] using hk
  | get_adapter r name res r' _ heq ih =>
    unfold Registry.get_adapter at heq
    cases hget : pyDictGet r.adapters name with
    | none =>
      rw [hget] at heq
      simp only [Except.ok.injEq, Prod.mk.injEq] at heq
      rw [← heq.2]
      exact ih
    | some a =>
      rw [hget] at heq
      cases hus : pyDictGet r.usageStats name with
      | none => rw [hus] at heq; simp at heq
      | some n =>
        rw [hus] at heq
        simp only [Except.ok.injEq, Prod.mk.injEq] at heq
        rw [← heq.2]
        intro k
        have hk := ih k
        simp only [pyDictGet_set]
        by_cases hkn : k = name
        · refine ⟨hk.1, ?_⟩
          simp [hkn, hget]
        · simpa [hkn] using hk
  | unregister r name r' b _ heq ih =>
    unfold Registry.unregister at heq
    by_cases hc : pyDictContains r.adapters name
    · rw [if_pos hc] at heq
      cases hmd : pyDictGet r.metadataCache name with
      | none => rw [hmd] at heq; simp at heq
      | some md =>
        rw [hmd] at heq
        cases hus : pyDictGet r.usageStats name with
        | none => rw [hus] at heq; simp at heq
        | some n =>
          rw [hus] at heq
          simp only [Except.ok.injEq, Prod.mk.injEq] at heq
          rw [← heq.1]
          intro k
          have hk := ih k
          simp only [pyDictGet_del]
          by_cases hkn : k = name
          · simp [hkn]
          · simpa [hkn] using hk
    · rw [if_neg hc] at heq
      simp only [Except.ok.injEq, Prod.mk.injEq] at heq
      rw [← heq.1]
      exact ih
  | clear r _ _ =>
    intro k
    simp [Registry.clear, Registry.empty, pyDictGet]

/-- Claim C9: in every reachable registry state the three tables have
identical key sets; consequently `get_usage_stats` returns `0` for
every unregistered name, `get_adapter` never raises the latent
`KeyError`, and a successful `get_adapter` increments exactly the
looked-up name's counter by one, leaving the other counters and the
other two tables untouched. -/
theorem c9_registry_invariant (r : Registry) (h : Reach r) :
    keysAligned r
    ∧ (∀ n, pyDictGet r.adapters n = none → r.get_usage_stats n = 0)
    ∧ (∀ n, ∃ res, r.get_adapter n = Except.ok res)
    ∧ (∀ n a r', r.get_adapter n = Except.ok (some a, r') →
        r'.get_usage_stats n = r.get_usage_stats n + 1
        ∧ (∀ m, m ≠ n → pyDictGet r'.usageStats m = pyDictGet r.usageStats m)
        ∧ r'.adapters = r.adapters ∧ r'.metadataCache = r.metadataCache) := by
  have hal := reach_keysAligned h
  refine ⟨hal, ?_, ?_, ?_⟩
  · intro n hn
    have haln := (hal n).2
    rw [hn] at haln
    unfold Registry.get_usage_stats
    cases hus : pyDictGet r.usageStats n with
    | none => rfl
    | some v => rw [hus] at haln; simp at haln
  · intro n
    unfold Registry.get_adapter
    cases hget : pyDictGet r.adapters n with
    | none => exact ⟨_, rfl⟩
    | some a =>
      have haln := (hal n).2
      rw [hget] at haln
      cases hus : pyDictGet r.usageStats n with
      | none => rw [hus] at haln; simp at haln
      | some v => exact ⟨_, rfl⟩
  · intro n a r' heq
    unfold Registry.get_adapter at heq
    cases hget : pyDictGet r.adapters n with
    | none => rw [hget] at heq; simp at heq
    | some a0 =>
      rw [hget] at heq
      cases hus : pyDictGet r.usageStats n with
      | none => rw [hus] at heq; simp at heq
      | some v =>
        rw [hus] at heq
        simp only [Except.ok.injEq, Prod.mk.injEq] at heq
        rw [← heq.2]
        refine ⟨?_, ?_, rfl, rfl⟩
        · unfold Registry.get_usage_stats
          simp [pyDictGet_set, hus]
        · intro m hm
          simp [pyDictGet_set, hm]

theorem c9_witness :
    Registry.empty.get_usage_stats "chat_tools" = 0 :=
  (c9_registry_invariant Registry.empty Reach.init).2.1 "chat_tools" rfl

end GWMcp
